import Mathlib

/-!
Shallow embedding of `photo.py` (lycheeupload): the `ExifData` class and the
`LycheePhoto` class (constructor pipeline, `resize`, `generateThumbnail`,
`cleanup`, `rotatephoto`, `adjustRotation`, id generation), together with
models of the Python / PIL library operations the code calls.
-/

namespace Lychee

/-! ### Python string primitives -/

/-- Python `s.replace(a, b)` for single characters `a`, `b`: every occurrence
of `a` in `s` is replaced by `b`. -/
def pyReplace (a b : Char) (s : String) : String :=
  String.mk (s.data.map fun c => if c = a then b else c)

/-- Python `s.replace(a, '')` for a single character `a`: every occurrence of
`a` is removed. -/
def pyRemoveChar (a : Char) (s : String) : String :=
  String.mk (s.data.filter fun c => c ≠ a)

/-- Python `s.ljust(width, c)`: pads `s` on the right with `c` up to `width`;
a string already at least `width` long is returned unchanged. -/
def ljust (s : String) (width : Nat) (c : Char) : String :=
  if s.length < width then String.mk (s.data ++ List.replicate (width - s.length) c) else s

/-! ### Tag values and the `ExifData` class (photo.py lines 19-55) -/

/-- A raw EXIF tag value as handed over by PIL: either an integer (e.g. the
Orientation tag) or a string (e.g. the DateTime tag). -/
inductive TagValue where
  | int (n : Int)
  | str (s : String)
deriving DecidableEq, Repr

/-- The `ExifData` class: class-level defaults `iso = "" ... orientation = 0`,
plus the private `_takedate` backing field of the `takedate` property
(photo.py lines 24-41). -/
structure ExifData where
  iso : TagValue := TagValue.str ""
  aperture : TagValue := TagValue.str ""
  make : TagValue := TagValue.str ""
  model : TagValue := TagValue.str ""
  shutter : TagValue := TagValue.str ""
  focal : TagValue := TagValue.str ""
  takedateRaw : String := ""
  taketime : String := ""
  orientation : TagValue := TagValue.int 0
deriving DecidableEq

/-- The `takedate` property getter (photo.py lines 24-27): returns
`self._takedate.replace(':', '-')`. -/
def ExifData.takedateGet (e : ExifData) : String :=
  pyReplace ':' '-' e.takedateRaw

/-- The `takedate` property setter (photo.py lines 29-31): stores
`value.replace(':', '-')` into `self._takedate`. -/
def ExifData.takedateSet (e : ExifData) (value : String) : ExifData :=
  { e with takedateRaw := pyReplace ':' '-' value }

/-! ### `datetime.strptime(value, '%Y:%m:%d %H:%M:%S')` model -/

/-- The capture time held in `self.datetime`: either the
`datetime.datetime.now()` value taken at construction (photo.py line 105) or a
value parsed from the DateTime tag (line 135). -/
inductive CaptureTime where
  | now
  | parsed (year month day hour minute second : Nat)
deriving DecidableEq, Repr

/-- The `self.description` field: the empty string it is initialised to
(photo.py line 75), or the datetime object assigned at line 137. -/
inductive Description where
  | empty
  | dt (t : CaptureTime)
deriving DecidableEq, Repr

/-- Splits a character list at every occurrence of `sep` (accumulator holds the
current chunk reversed); models Python `str.split(sep)` for a one-character
separator. -/
def splitCharAux (sep : Char) : List Char → List Char → List (List Char)
  | [], acc => [acc.reverse]
  | c :: rest, acc =>
      if c = sep then acc.reverse :: splitCharAux sep rest []
      else splitCharAux sep rest (c :: acc)

/-- One numeric field of a `strptime` pattern: all digits, nonempty, at most
`maxLen` characters, value within `[lo, hi]`. -/
def parseField (l : List Char) (maxLen lo hi : Nat) : Option Nat :=
  if l ≠ [] ∧ l.length ≤ maxLen ∧ l.all Char.isDigit then
    let n := l.foldl (fun acc c => acc * 10 + (c.toNat - 48)) 0
    if lo ≤ n ∧ n ≤ hi then some n else none
  else none

/-- Days in a month, leap years included (the validation
`datetime.datetime.strptime` performs on the day-of-month field). -/
def daysInMonth (y mo : Nat) : Nat :=
  if mo = 2 then
    if y % 4 = 0 ∧ (y % 100 ≠ 0 ∨ y % 400 = 0) then 29 else 28
  else if mo = 4 ∨ mo = 6 ∨ mo = 9 ∨ mo = 11 then 30
  else 31

/-- Models `datetime.datetime.strptime(value, '%Y:%m:%d %H:%M:%S')`
(photo.py line 135): `none` models the `ValueError` raised on a string that
does not match the pattern. -/
def strptimeYmdHms (s : String) : Option CaptureTime :=
  match splitCharAux ' ' s.data [] with
  | [dpart, tpart] =>
    match splitCharAux ':' dpart [], splitCharAux ':' tpart [] with
    | [ys, mos, ds], [hs, mis, ss] =>
      match parseField ys 4 1 9999, parseField mos 2 1 12, parseField ds 2 1 31,
            parseField hs 2 0 23, parseField mis 2 0 59, parseField ss 2 0 61 with
      | some y, some mo, some d, some hr, some mi, some sec =>
          if d ≤ daysInMonth y mo then some (CaptureTime.parsed y mo d hr mi sec)
          else none
      | _, _, _, _, _, _ => none
    | _, _ => none
  | _ => none

/-! ### The EXIF extraction block of `__init__` (photo.py lines 105-140) -/

/-- The per-photo state the extraction block reads and writes: `self.width`,
`self.height` (unset before the `try` block assigns them), `self.datetime`,
`self.description` and `self.exif`. -/
structure ExtractState where
  width : Option Nat := none
  height : Option Nat := none
  capturedAt : CaptureTime := CaptureTime.now
  description : Description := Description.empty
  exif : ExifData := {}
deriving DecidableEq

/-- Result of `img._getexif()` when the attribute exists, or absence of the
attribute (the `hasattr(img, '_getexif')` test at line 112). The tag keys are
already decoded through `PIL.ExifTags.TAGS`. -/
inductive GetExif where
  | noAttr
  | attr (info : Option (List (String × TagValue)))

/-- Result of `Image.open(self.srcfullpath)` (photo.py line 110): an `IOError`,
or a decoded image with its dimensions and EXIF access. -/
inductive OpenResult where
  | ioError
  | ok (width height : Nat) (exif : GetExif)

/-- Python exceptions that can escape the constructor: the `ValueError` of
`strptime` on a malformed string, the `TypeError` of `strptime` on a
non-string argument, and the `AttributeError` raised when `self.width` is read
but was never assigned. -/
inductive BuildError where
  | valueError
  | typeError
  | attributeError
deriving DecidableEq, Repr

/-- The field assignments of the tag loop body that touch `self.exif`
(photo.py lines 120-133): a chain of independent `if decode == ...` tests. -/
def updateExif (e : ExifData) (decode : String) (value : TagValue) : ExifData :=
  let e := if decode = "Orientation" then { e with orientation := value } else e
  let e := if decode = "Make" then { e with make := value } else e
  let e := if decode = "MaxApertureValue" then { e with aperture := value } else e
  let e := if decode = "FocalLength" then { e with focal := value } else e
  let e := if decode = "ISOSpeedRatings" then { e with iso := value } else e
  let e := if decode = "Model" then { e with model := value } else e
  let e := if decode = "ExposureTime" then { e with shutter := value } else e
  e

/-- One iteration of the tag loop (photo.py lines 115-135). The DateTime tag
runs `strptime`, whose `ValueError` (malformed string) or `TypeError`
(non-string value) is not caught by the surrounding `except IOError`. -/
def processTag (st : ExtractState) (decode : String) (value : TagValue) :
    Except BuildError ExtractState :=
  let st := { st with exif := updateExif st.exif decode value }
  if decode = "DateTime" then
    match value with
    | TagValue.str v =>
      match strptimeYmdHms v with
      | some t => Except.ok { st with capturedAt := t }
      | none => Except.error BuildError.valueError
    | TagValue.int _ => Except.error BuildError.typeError
  else
    Except.ok st

/-- The tag loop `for tag, value in exifinfo.items()` (photo.py line 115). -/
def processTags (st : ExtractState) : List (String × TagValue) → Except BuildError ExtractState
  | [] => Except.ok st
  | (t, v) :: rest =>
    match processTag st t v with
    | Except.ok st2 => processTags st2 rest
    | Except.error e => Except.error e

/-- The `try ... except IOError` block of the constructor (photo.py lines
109-140): an `IOError` from `Image.open` is caught and only logged, leaving
`self.width` and `self.height` unset; after a successful tag loop with a
present EXIF dictionary, `self.description = self.datetime` (line 137). -/
def extract (res : OpenResult) : Except BuildError ExtractState :=
  match res with
  | OpenResult.ioError => Except.ok {}
  | OpenResult.ok w h ge =>
    let st : ExtractState := { width := some w, height := some h }
    match ge with
    | GetExif.noAttr => Except.ok st
    | GetExif.attr none => Except.ok st
    | GetExif.attr (some tags) =>
      match processTags st tags with
      | Except.ok st2 => Except.ok { st2 with description := Description.dt st2.capturedAt }
      | Except.error e => Except.error e

deriving instance DecidableEq for Except

/-! ### The constructor pipeline (photo.py lines 69-152) -/

/-- The successive operations the constructor performs, in source order. -/
inductive BuildStep where
  | identifiers
  | metadata
  | smallThumb
  | largeThumb
  | mediumResize
  | bigResize
  | bigAlias
  | rotationPass
  | checksum
deriving DecidableEq, Repr

/-- Constructor input: the outcome of opening the source image and whether
`big_size` is present in the configuration (photo.py line 146). -/
structure BuildInput where
  source : OpenResult
  hasBigSize : Bool

/-- Reading of dimensions: `generateThumbnail` begins by reading `self.width` and `self.height`
(photo.py line 183); when the decode failed these attributes were never
assigned, so the read raises `AttributeError` before any file is created. -/
def thumbnailReadsDims (st : ExtractState) : Except BuildError Unit :=
  match st.width, st.height with
  | some _, some _ => Except.ok ()
  | _, _ => Except.error BuildError.attributeError

/-- The constructor pipeline (photo.py lines 69-152) as the trace of steps it
performs plus its outcome: identifiers and URLs (lines 83-104), the
metadata/extraction block (105-140), the small thumbnail (142), the @2x
thumbnail (143), the medium resize (144), the optional big resize or the
aliasing of `big_path` to the source (146-149), and the SHA1 checksum (152).
No rotation happens here: `adjustRotation` is a separate method the
constructor never calls. -/
def runBuild (inp : BuildInput) : List BuildStep × Except BuildError ExtractState :=
  let t1 := [BuildStep.identifiers, BuildStep.metadata]
  match extract inp.source with
  | Except.error e => (t1, Except.error e)
  | Except.ok st =>
    match thumbnailReadsDims st with
    | Except.error e => (t1 ++ [BuildStep.smallThumb], Except.error e)
    | Except.ok _ =>
      match thumbnailReadsDims st with
      | Except.error e => (t1 ++ [BuildStep.smallThumb, BuildStep.largeThumb], Except.error e)
      | Except.ok _ =>
        let t2 := t1 ++ [BuildStep.smallThumb, BuildStep.largeThumb, BuildStep.mediumResize]
        let t3 := t2 ++ (if inp.hasBigSize then [BuildStep.bigResize] else [BuildStep.bigAlias])
        (t3 ++ [BuildStep.checksum], Except.ok st)

/-- Modelled from the spec: the build order stated in section 4.5 of the
specification, with the orientation-correction pass as step (7) before the
checksum. Written from the spec words, for comparison with `runBuild`. -/
def specBuildOrder (hasBigSize : Bool) : List BuildStep :=
  [BuildStep.identifiers, BuildStep.metadata, BuildStep.smallThumb, BuildStep.largeThumb,
   BuildStep.mediumResize] ++ (if hasBigSize then [BuildStep.bigResize] else [BuildStep.bigAlias])
  ++ [BuildStep.rotationPass, BuildStep.checksum]

/-! ### `resize` (photo.py lines 155-172) -/

/-- The dimension computation of `resize` (photo.py lines 159-163): when
`size < max(width, height)`, `ratio = float(size) / max_dimension` and each
new dimension is `int(ratio * dim)`; Python `int()` truncates, which for
these non-negative values is the floor, modelled here in exact rational
arithmetic. `none` models the `else` branch that returns `self.srcfullpath`
unchanged. This covers only the value computed; the file effect of the call,
including the unconditional temporary-file creation at line 156, is modelled
by `resizeRun` below. -/
def resize (w h size : Nat) : Option (Nat × Nat) :=
  let maxDimension := max w h
  if size < maxDimension then
    let r : ℚ := (size : ℚ) / (maxDimension : ℚ)
    some ((⌊r * (w : ℚ)⌋).toNat, (⌊r * (h : ℚ)⌋).toNat)
  else none

/-- Modelled from the spec: the resize dimension computation as section 4.3
words it, each dimension scaled by `maxDimension / max(width, height)` and
"rounded to nearest integer". Written from the spec words, for comparison
with `resize`. -/
def resizeDimsSpec (w h size : Nat) : Option (Nat × Nat) :=
  let maxDimension := max w h
  if size < maxDimension then
    let r : ℚ := (size : ℚ) / (maxDimension : ℚ)
    some ((round (r * (w : ℚ))).toNat, (round (r * (h : ℚ))).toNat)
  else none

/-- The observable outcome of one `resize` call: the path the method returns,
the path of the temporary file the `with` block created, and what was saved
into that file — `none` when the file was created but never written. -/
structure ResizeOutcome where
  returnedPath : String
  tempPath : String
  tempContent : Option (Nat × Nat)
deriving DecidableEq, Repr

/-- Model of `resize` (photo.py lines 155-172) including its file effect.
Line 156 runs `with tempfile.NamedTemporaryFile(delete=False) as temp_image`
*before* the size test, so a fresh empty temporary file (here `tempName`) is
created on every call, and `delete=False` makes it survive the `with` block.
On the shrinking branch (lines 161-169) the resized image is saved into it
and its name returned; on the `else` branch (lines 170-172) the source path
is returned and the empty temporary file is left behind on disk. -/
def resizeRun (srcfullpath tempName : String) (w h size : Nat) : ResizeOutcome :=
  match resize w h size with
  | some dims => { returnedPath := tempName, tempPath := tempName, tempContent := some dims }
  | none => { returnedPath := srcfullpath, tempPath := tempName, tempContent := none }

/-! ### `generateThumbnail` (photo.py lines 175-204) -/

/-- A PIL crop box: left, upper, right, lower. -/
structure Box where
  left : Nat
  upper : Nat
  right : Nat
  lower : Nat
deriving DecidableEq, Repr

/-- The crop box computed by `generateThumbnail` (photo.py lines 183-194):
when width > height, `left = delta / 2` along the horizontal axis; otherwise
`upper = delta / 2` along the vertical axis (integer division in both
cases). -/
def cropBox (w h : Nat) : Box :=
  if h < w then
    let delta := w - h
    let left := delta / 2
    { left := left, upper := 0, right := h + left, lower := h }
  else
    let delta := h - w
    let upper := delta / 2
    { left := 0, upper := upper, right := w, lower := w + upper }

/-- Models `PIL.Image.thumbnail((tw, th))` on an image of size `(w, h)`: it
only ever shrinks, scaling first the width to `tw` (adjusting the height by
the same integer ratio, at least 1), then the height to `th` likewise. -/
def pilThumbnailDims (w h tw th : Nat) : Nat × Nat :=
  let p := if tw < w then (tw, max (h * tw / w) 1) else (w, h)
  if th < p.2 then (max (p.1 * th / p.2) 1, th) else p

/-- The output dimensions of `generateThumbnail` (photo.py lines 175-204):
crop to `cropBox`, then `img.thumbnail(res)`. -/
def generateThumbnailDims (w h : Nat) (res : Nat × Nat) : Nat × Nat :=
  let b := cropBox w h
  pilThumbnailDims (b.right - b.left) (b.lower - b.upper) res.1 res.2

/-! ### `rotatephoto` and `adjustRotation` (photo.py lines 219-246) -/

/-- The three derivative files `rotatephoto` touches, by their content of type
`Img`: the relocated primary at `destfullpath`, the large thumbnail at
`thumbnailx2fullpath` and the small thumbnail at `thumbnailfullpath`. -/
structure Derivatives (Img : Type) where
  destfullpath : Img
  thumbnailx2fullpath : Img
  thumbnailfullpath : Img
deriving DecidableEq, Repr

/-- Model of `rotatephoto` (photo.py lines 219-230), with PIL rotation abstracted as
`rotate`. Lines 220-223 rotate the primary in place; lines 225-227 rotate the
@2x thumbnail in place; lines 228-230 then open the small thumbnail into
`img` but never use it, call `img2.rotate(rotation)` without keeping the
result, and save `img2` — still the rotated @2x thumbnail — over the small
thumbnail file. -/
def rotatephoto {Img : Type} (rotate : Img → Int → Img) (photo : Derivatives Img)
    (rotation : Int) : Derivatives Img :=
  let img := photo.destfullpath
  let img2 := rotate img rotation
  let photo := { photo with destfullpath := img2 }
  let img := photo.thumbnailx2fullpath
  let img2 := rotate img rotation
  let photo := { photo with thumbnailx2fullpath := img2 }
  let _img := photo.thumbnailfullpath
  let _discarded := rotate img2 rotation
  { photo with thumbnailfullpath := img2 }

/-- Model of `adjustRotation` (photo.py lines 232-246): orientation 6 rotates by -90,
orientation 8 by 90, anything in {0, 1} is left alone. -/
def adjustRotation {Img : Type} (rotate : Img → Int → Img) (orientation : TagValue)
    (photo : Derivatives Img) : Derivatives Img :=
  if orientation ≠ TagValue.int 0 ∧ orientation ≠ TagValue.int 1 then
    let photo := if orientation = TagValue.int 6 then rotatephoto rotate photo (-90) else photo
    if orientation = TagValue.int 8 then rotatephoto rotate photo 90 else photo
  else photo

/-! ### Photo id generation (photo.py lines 83-86) -/

/-- The id computation of the constructor (photo.py lines 83-86):
`str(time.time())`, then `.replace('.', '')`, then `.ljust(14, '0')`. The
input is the Python 2 `str()` rendering of the float timestamp. -/
def generateId (timeStr : String) : String :=
  ljust (pyRemoveChar '.' timeStr) 14 '0'

/-! ### `cleanup` (photo.py lines 207-216) -/

/-- Models `os.remove(p)` on a file system holding the files `fs`: removal of
a missing file raises (modelled by `none`). -/
def osRemove (fs : List String) (p : String) : Option (List String) :=
  if p ∈ fs then some (fs.erase p) else none

/-- The last two removals of the `try` block of `cleanup` (photo.py lines
213-214): `os.remove(self.thumbnailfullpath)` then
`os.remove(self.thumbnailx2fullpath)`; a failure stops the sequence there,
leaving the state reached so far. -/
def removeThumbs (fs : List String) (thumbPath thumb2xPath : String) : List String :=
  match osRemove fs thumbPath with
  | none => fs
  | some fs2 =>
    match osRemove fs2 thumb2xPath with
    | none => fs2
    | some fs3 => fs3

/-- Model of `cleanup` (photo.py lines 207-216): one `try` block removes
`self.medium_path`, `self.thumbnailfullpath` and `self.thumbnailx2fullpath`
in that order; any exception is caught and logged, so a failure aborts the
remaining removals but nothing is raised to the caller. -/
def cleanup (fs : List String) (mediumPath thumbPath thumb2xPath : String) : List String :=
  match osRemove fs mediumPath with
  | none => fs
  | some fs1 => removeThumbs fs1 thumbPath thumb2xPath

end Lychee
namespace Lychee

/-! ### Helper lemmas -/

/-- Exact-arithmetic value of `int(float(a) / c * b)` for naturals. -/
theorem floor_rat_div_mul (a b c : Nat) (hc : 0 < c) :
    (⌊((a : ℚ) / (c : ℚ)) * (b : ℚ)⌋).toNat = a * b / c := by
  have hcq : (c : ℚ) ≠ 0 := Nat.cast_ne_zero.mpr hc.ne'
  have h1 : ((a : ℚ) / (c : ℚ)) * (b : ℚ) = (((a * b : ℕ) : ℤ) : ℚ) / ((c : ℕ) : ℚ) := by
    push_cast
    field_simp
  rw [h1, Rat.floor_intCast_div_natCast, ← Int.natCast_div, Int.toNat_natCast]

/-- Exact-arithmetic value of `round(a / c * b)` for naturals. -/
theorem round_rat_div_mul (a b c : Nat) (hc : 0 < c) :
    (round (((a : ℚ) / (c : ℚ)) * (b : ℚ))).toNat = (2 * (a * b) + c) / (2 * c) := by
  have hcq : (c : ℚ) ≠ 0 := Nat.cast_ne_zero.mpr hc.ne'
  rw [round_eq]
  have h1 : ((a : ℚ) / (c : ℚ)) * (b : ℚ) + 1 / 2
      = (((2 * (a * b) + c : ℕ) : ℤ) : ℚ) / ((2 * c : ℕ) : ℚ) := by
    push_cast
    field_simp
    ring
  rw [h1, Rat.floor_intCast_div_natCast, ← Int.natCast_div, Int.toNat_natCast]

/-- On the shrinking branch, `resize` computes truncated scaled dimensions. -/
theorem resize_eq (w h size : Nat) (h1 : size < max w h) :
    resize w h size = some (size * w / max w h, size * h / max w h) := by
  have hM : 0 < max w h := lt_of_le_of_lt (Nat.zero_le _) h1
  simp only [resize]
  rw [if_pos h1, floor_rat_div_mul size w _ hM, floor_rat_div_mul size h _ hM]

/-- On the shrinking branch, the spec-worded rounding computes
round-to-nearest scaled dimensions. -/
theorem resizeDimsSpec_eq (w h size : Nat) (h1 : size < max w h) :
    resizeDimsSpec w h size =
      some ((2 * (size * w) + max w h) / (2 * max w h),
            (2 * (size * h) + max w h) / (2 * max w h)) := by
  have hM : 0 < max w h := lt_of_le_of_lt (Nat.zero_le _) h1
  simp only [resizeDimsSpec]
  rw [if_pos h1, round_rat_div_mul size w _ hM, round_rat_div_mul size h _ hM]

/-- Dimension bounds of the `resize` value computation: the fitting case
returns `none` (the `else` branch), and shrunk dimensions never exceed the
maximum dimension nor the originals. -/
theorem resize_dims_bounded (w h size : Nat) :
    (max w h ≤ size → resize w h size = none) ∧
    (∀ w2 h2, resize w h size = some (w2, h2) → max w2 h2 ≤ size ∧ w2 ≤ w ∧ h2 ≤ h) := by
  constructor
  · intro hle
    simp only [resize]
    rw [if_neg (Nat.not_lt.mpr hle)]
  · intro w2 h2 hsome
    by_cases hlt : size < max w h
    · rw [resize_eq w h size hlt] at hsome
      have hM : 0 < max w h := lt_of_le_of_lt (Nat.zero_le _) hlt
      have hw2 : w2 = size * w / max w h := by
        injection hsome with h3
        injection h3 with h4 h5
        exact h4.symm
      have hh2 : h2 = size * h / max w h := by
        injection hsome with h3
        injection h3 with h4 h5
        exact h5.symm
      subst hw2
      subst hh2
      refine ⟨max_le ?_ ?_, ?_, ?_⟩
      · calc size * w / max w h ≤ size * max w h / max w h :=
              Nat.div_le_div_right (Nat.mul_le_mul_left _ (le_max_left w h))
          _ = size := Nat.mul_div_cancel size hM
      · calc size * h / max w h ≤ size * max w h / max w h :=
              Nat.div_le_div_right (Nat.mul_le_mul_left _ (le_max_right w h))
          _ = size := Nat.mul_div_cancel size hM
      · calc size * w / max w h ≤ max w h * w / max w h :=
              Nat.div_le_div_right (Nat.mul_le_mul_right _ hlt.le)
          _ = w := Nat.mul_div_cancel_left _ hM
      · calc size * h / max w h ≤ max w h * h / max w h :=
              Nat.div_le_div_right (Nat.mul_le_mul_right _ hlt.le)
          _ = h := Nat.mul_div_cancel_left _ hM
    · simp only [resize] at hsome
      rw [if_neg hlt] at hsome
      exact absurd hsome (by simp)

/-- Claim C6 counterexample: resizing a 100x100 image to fit 1920 is the
no-op branch — the source path is returned and nothing is written — yet the
call has already created a fresh temporary file at line 156, which is leaked
empty, so "creating no new file" is false. -/
theorem resize_noop_creates_temp_file_counterexample :
    (resizeRun "src.jpg" "tmp0001" 100 100 1920).returnedPath = "src.jpg" ∧
    (resizeRun "src.jpg" "tmp0001" 100 100 1920).tempContent = none ∧
    (resizeRun "src.jpg" "tmp0001" 100 100 1920).tempPath = "tmp0001" ∧
    "tmp0001" ≠ "src.jpg" := by
  decide

/-- Claim C6 (amended): resize output dimensions never exceed the maximum
dimension and resize never upscales; when the input already fits, the source
path is returned unchanged and zero bytes are written — but the call still
creates a fresh temporary file before the size test (NamedTemporaryFile with
delete equal to False, line 156), which the no-op branch leaks empty on disk
rather than creating no new file. -/
theorem resize_bounded_noop_with_leaked_temp (src tmp : String) (w h size : Nat) :
    (max w h ≤ size →
      resizeRun src tmp w h size =
        { returnedPath := src, tempPath := tmp, tempContent := none }) ∧
    (∀ w2 h2, (resizeRun src tmp w h size).tempContent = some (w2, h2) →
      max w2 h2 ≤ size ∧ w2 ≤ w ∧ h2 ≤ h ∧
      (resizeRun src tmp w h size).returnedPath = tmp) ∧
    (resizeRun src tmp w h size).tempPath = tmp := by
  refine ⟨?_, ?_, ?_⟩
  · intro hle
    have hnone : resize w h size = none := (resize_dims_bounded w h size).1 hle
    simp [resizeRun, hnone]
  · intro w2 h2 hc
    cases hr : resize w h size with
    | none =>
      rw [show resizeRun src tmp w h size =
          { returnedPath := src, tempPath := tmp, tempContent := none } from by
        simp [resizeRun, hr]] at hc
      exact absurd hc (by simp)
    | some dims =>
      have hout : resizeRun src tmp w h size =
          { returnedPath := tmp, tempPath := tmp, tempContent := some dims } := by
        simp [resizeRun, hr]
      rw [hout] at hc
      have hdims : dims = (w2, h2) := by
        simpa using hc
      rw [hdims] at hr
      obtain ⟨hb, hw2, hh2⟩ := (resize_dims_bounded w h size).2 w2 h2 hr
      exact ⟨hb, hw2, hh2, by rw [hout]⟩
  · cases hr : resize w h size with
    | none => simp [resizeRun, hr]
    | some dims => simp [resizeRun, hr]

/-- Witness for claim C6 at a 100x100 image that already fits 1920: the
source path comes back, the leaked temporary file stays empty. -/
theorem resize_bounded_noop_with_leaked_temp_witness :
    resizeRun "photo.jpg" "tmpA" 100 100 1920 =
      { returnedPath := "photo.jpg", tempPath := "tmpA", tempContent := none } :=
  (resize_bounded_noop_with_leaked_temp "photo.jpg" "tmpA" 100 100 1920).1 (by decide)

/-- Claim C7 counterexample: for a 3000x2000 image and maximum dimension
1000 the code truncates 666.67 to 666, while scaling rounded to the nearest
integer, as the spec words it, would give 667. -/
theorem resize_truncates_counterexample :
    resize 3000 2000 1000 = some (1000, 666) ∧
    resizeDimsSpec 3000 2000 1000 = some (1000, 667) ∧
    resize 3000 2000 1000 ≠ resizeDimsSpec 3000 2000 1000 := by
  refine ⟨?_, ?_, ?_⟩
  · rw [resize_eq 3000 2000 1000 (by decide)]
    decide
  · rw [resizeDimsSpec_eq 3000 2000 1000 (by decide)]
    decide
  · rw [resize_eq 3000 2000 1000 (by decide), resizeDimsSpec_eq 3000 2000 1000 (by decide)]
    decide

/-- Claim C7 (amended): when the image exceeds the maximum dimension, each
dimension is scaled by maxDimension / max(width, height) with the result
truncated (rounded down), not rounded to nearest; a 4000x3000 input with
maximum dimension 1920 yields exactly 1920x1440. -/
theorem resize_scales_by_truncation (w h size : Nat) (h1 : size < max w h) :
    resize w h size = some (size * w / max w h, size * h / max w h) ∧
    resize 4000 3000 1920 = some (1920, 1440) := by
  refine ⟨resize_eq w h size h1, ?_⟩
  rw [resize_eq 4000 3000 1920 (by decide)]
  decide

/-- Witness for claim C7 at a 3000x2000 image resized to fit 1000. -/
theorem resize_scales_by_truncation_witness :
    resize 3000 2000 1000 = some (1000 * 3000 / max 3000 2000, 1000 * 2000 / max 3000 2000) ∧
    resize 4000 3000 1920 = some (1920, 1440) :=
  resize_scales_by_truncation 3000 2000 1000 (by decide)

/-- The crop box of `generateThumbnail` is a square whose side is the shorter
source dimension. -/
theorem cropBox_dims (w h : Nat) :
    (cropBox w h).right - (cropBox w h).left = min w h ∧
    (cropBox w h).lower - (cropBox w h).upper = min w h := by
  by_cases hwh : h < w
  · simp only [cropBox, if_pos hwh]
    constructor
    · omega
    · omega
  · simp only [cropBox, if_neg hwh]
    constructor
    · omega
    · omega

/-- Applying `PIL.Image.thumbnail` to a square image with a square box yields a square
of side `min box side`. -/
theorem pilThumbnailDims_square (s t : Nat) (hs : 1 ≤ s) (ht : 1 ≤ t) :
    pilThumbnailDims s s t t = (min t s, min t s) := by
  simp only [pilThumbnailDims]
  by_cases hts : t < s
  · rw [if_pos hts]
    have h1 : s * t / s = t := Nat.mul_div_cancel_left t hs
    simp only [h1, Nat.max_eq_left ht]
    rw [if_neg (lt_irrefl t)]
    rw [Nat.min_eq_left hts.le]
  · rw [if_neg hts]
    rw [if_neg hts]
    rw [Nat.min_eq_right (Nat.le_of_not_lt hts)]

/-- Claim C8: the thumbnail pass center-crops a square of side equal to the
shorter source dimension, with offset floor((longer - shorter) / 2) along the
longer axis, and the final output is square of side
min(targetBox, min(sourceWidth, sourceHeight)). -/
theorem thumbnail_square_min (w h t : Nat) (hw : 1 ≤ w) (hh : 1 ≤ h) (ht : 1 ≤ t) :
    ((cropBox w h).right - (cropBox w h).left = min w h ∧
     (cropBox w h).lower - (cropBox w h).upper = min w h) ∧
    (h < w → (cropBox w h).left = (w - h) / 2) ∧
    (w ≤ h → (cropBox w h).upper = (h - w) / 2) ∧
    generateThumbnailDims w h (t, t) = (min t (min w h), min t (min w h)) := by
  obtain ⟨h1, h2⟩ := cropBox_dims w h
  refine ⟨⟨h1, h2⟩, ?_, ?_, ?_⟩
  · intro hwh
    simp [cropBox, if_pos hwh]
  · intro hwh
    simp [cropBox, if_neg (Nat.not_lt.mpr hwh)]
  · simp only [generateThumbnailDims]
    rw [h1, h2]
    exact pilThumbnailDims_square (min w h) t (le_min hw hh) ht

/-- Witness for claim C8 at a 4000x3000 image with a 200x200 box. -/
theorem thumbnail_square_min_witness :
    (((cropBox 4000 3000).right - (cropBox 4000 3000).left = min 4000 3000 ∧
      (cropBox 4000 3000).lower - (cropBox 4000 3000).upper = min 4000 3000) ∧
     ((3000 : Nat) < 4000 → (cropBox 4000 3000).left = (4000 - 3000) / 2) ∧
     ((4000 : Nat) ≤ 3000 → (cropBox 4000 3000).upper = (3000 - 4000) / 2) ∧
     generateThumbnailDims 4000 3000 (200, 200) = (min 200 (min 4000 3000), min 200 (min 4000 3000))) :=
  thumbnail_square_min 4000 3000 200 (by decide) (by decide) (by decide)

/-- Claim C9: the id is a 14-character decimal string. The hypotheses state
what Python 2 `str(time.time())` guarantees about the input: only digits and
dots, and at most 14 digits (`str` of a float prints 12 significant digits). -/
theorem generateId_fourteen_digits (s : String)
    (hchars : ∀ c ∈ s.data, c.isDigit = true ∨ c = '.')
    (hlen : (pyRemoveChar '.' s).length ≤ 14) :
    (generateId s).length = 14 ∧ ∀ c ∈ (generateId s).data, c.isDigit = true := by
  have hmem : ∀ c ∈ (pyRemoveChar '.' s).data, c.isDigit = true := by
    intro c hc
    rw [show (pyRemoveChar '.' s).data = s.data.filter (fun c => c ≠ '.') from rfl] at hc
    rw [List.mem_filter] at hc
    obtain ⟨hcs, hne⟩ := hc
    rcases hchars c hcs with hd | he
    · exact hd
    · exact absurd he (of_decide_eq_true hne)
  unfold generateId ljust
  by_cases hlt : (pyRemoveChar '.' s).length < 14
  · rw [if_pos hlt]
    constructor
    · rw [String.length_mk, List.length_append, List.length_replicate]
      have hdl : (pyRemoveChar '.' s).length = (pyRemoveChar '.' s).data.length := rfl
      omega
    · intro c hc
      rw [show (String.mk ((pyRemoveChar '.' s).data ++
          List.replicate (14 - (pyRemoveChar '.' s).length) '0')).data =
          (pyRemoveChar '.' s).data ++ List.replicate (14 - (pyRemoveChar '.' s).length) '0'
          from rfl] at hc
      rcases List.mem_append.mp hc with hmem2 | hrep
      · exact hmem c hmem2
      · rw [List.eq_of_mem_replicate hrep]
        decide
  · rw [if_neg hlt]
    exact ⟨by omega, hmem⟩

/-- Witness for claim C9 at the Python 2 rendering of a real timestamp. -/
theorem generateId_fourteen_digits_witness :
    (generateId "1381315235.72").length = 14 ∧
    ∀ c ∈ (generateId "1381315235.72").data, c.isDigit = true :=
  generateId_fourteen_digits "1381315235.72" (by decide) (by decide)

/-- Claim C10: replacing the colon separator by a dash is idempotent, so
writing through the `takedate` setter and reading through the getter leaves
an already-normalized date unchanged. -/
theorem takedate_normalization_idempotent (s : String) (e : ExifData) :
    pyReplace ':' '-' (pyReplace ':' '-' s) = pyReplace ':' '-' s ∧
    (ExifData.takedateSet e (pyReplace ':' '-' s)).takedateGet = pyReplace ':' '-' s := by
  have key : ∀ u : String, pyReplace ':' '-' (pyReplace ':' '-' u) = pyReplace ':' '-' u := by
    intro u
    unfold pyReplace
    congr 1
    rw [show (String.mk (u.data.map fun c => if c = ':' then '-' else c)).data =
        u.data.map (fun c => if c = ':' then '-' else c) from rfl]
    rw [List.map_map]
    apply List.map_congr_left
    intro c _
    by_cases hc : c = ':'
    · simp [hc]
    · simp [hc]
  refine ⟨key s, ?_⟩
  show pyReplace ':' '-' (pyReplace ':' '-' (pyReplace ':' '-' s)) = pyReplace ':' '-' s
  rw [key (pyReplace ':' '-' s), key s]

/-- Claim C1 (code bug): with rotation modelled freely as consing the angle
onto the image history, orientation 6 rotates the primary and the @2x
thumbnail by -90 as claimed, but the small thumbnail is overwritten with the
rotated @2x thumbnail content (line 229 discards the rotation of `img2` and
line 230 saves `img2`, the rotated @2x image, over the small thumbnail)
instead of its own rotated prior content. -/
theorem adjustRotation_small_thumb_bug :
    adjustRotation (fun i r => r :: i) (TagValue.int 6)
        (⟨[0], [1], [2]⟩ : Derivatives (List Int)) =
      ⟨[-90, 0], [-90, 1], [-90, 1]⟩ ∧
    (adjustRotation (fun i r => r :: i) (TagValue.int 6)
        (⟨[0], [1], [2]⟩ : Derivatives (List Int))).thumbnailfullpath ≠ [-90, 2] := by
  decide

/-- A tag loop over entries none of which is the DateTime tag always
succeeds and leaves the capture time and the dimensions unchanged. -/
theorem processTags_no_datetime (tags : List (String × TagValue)) :
    ∀ st : ExtractState, (∀ p ∈ tags, p.1 ≠ "DateTime") →
    ∃ st2, processTags st tags = Except.ok st2 ∧ st2.capturedAt = st.capturedAt ∧
      st2.width = st.width ∧ st2.height = st.height := by
  induction tags with
  | nil =>
    intro st _
    exact ⟨st, rfl, rfl, rfl, rfl⟩
  | cons hd tl ih =>
    intro st hnd
    obtain ⟨t, v⟩ := hd
    have ht : t ≠ "DateTime" := hnd (t, v) (List.mem_cons_self _ _)
    have hpt : processTag st t v = Except.ok { st with exif := updateExif st.exif t v } := by
      unfold processTag
      rw [if_neg ht]
    obtain ⟨st2, h2, hc, hw, hh⟩ := ih { st with exif := updateExif st.exif t v }
      (fun p hp => hnd p (List.mem_cons_of_mem _ hp))
    refine ⟨st2, ?_, hc, hw, hh⟩
    show processTags st ((t, v) :: tl) = Except.ok st2
    unfold processTags
    rw [hpt]
    exact h2

/-- Claim C2 counterexample: a successful build of a plain 4x3 image follows
the source order with no orientation-correction pass at all, differing from
the order the spec states. -/
theorem build_order_counterexample :
    (runBuild ⟨OpenResult.ok 4 3 GetExif.noAttr, false⟩).2 =
      Except.ok { width := some 4, height := some 3 } ∧
    (runBuild ⟨OpenResult.ok 4 3 GetExif.noAttr, false⟩).1 ≠ specBuildOrder false ∧
    BuildStep.rotationPass ∉ (runBuild ⟨OpenResult.ok 4 3 GetExif.noAttr, false⟩).1 := by
  decide

/-- Claim C2 (amended): every successful build performs, in order,
identifiers, metadata, small thumbnail, large thumbnail, medium resize, the
optional big resize (else the big-path alias), then the checksum; the
orientation-correction pass is never part of the build. -/
theorem build_order_actual (inp : BuildInput) (st : ExtractState)
    (hok : (runBuild inp).2 = Except.ok st) :
    (runBuild inp).1 = [BuildStep.identifiers, BuildStep.metadata, BuildStep.smallThumb,
      BuildStep.largeThumb, BuildStep.mediumResize] ++
      (if inp.hasBigSize then [BuildStep.bigResize] else [BuildStep.bigAlias]) ++
      [BuildStep.checksum] ∧
    BuildStep.rotationPass ∉ (runBuild inp).1 := by
  cases hx : extract inp.source with
  | error e =>
    simp [runBuild, hx] at hok
  | ok st1 =>
    cases hy : thumbnailReadsDims st1 with
    | error e =>
      simp [runBuild, hx, hy] at hok
    | ok u =>
      cases u
      cases hb : inp.hasBigSize
      · simp [runBuild, hx, hy, hb]
      · simp [runBuild, hx, hy, hb]

/-- Witness for claim C2 at a successful 4x3 build with a configured big
size. -/
theorem build_order_actual_witness :
    (runBuild ⟨OpenResult.ok 4 3 GetExif.noAttr, true⟩).1 =
      [BuildStep.identifiers, BuildStep.metadata, BuildStep.smallThumb,
       BuildStep.largeThumb, BuildStep.mediumResize] ++
      (if (true : Bool) then [BuildStep.bigResize] else [BuildStep.bigAlias]) ++
      [BuildStep.checksum] ∧
    BuildStep.rotationPass ∉ (runBuild ⟨OpenResult.ok 4 3 GetExif.noAttr, true⟩).1 :=
  build_order_actual ⟨OpenResult.ok 4 3 GetExif.noAttr, true⟩
    { width := some 4, height := some 3 } (by decide)

/-- Claim C3 counterexample: a malformed DateTime tag makes the whole build
fail with the uncaught strptime error, and with the tag absent but another
tag present the description is the capture time, not the empty string. -/
theorem malformed_datetime_counterexample :
    (runBuild ⟨OpenResult.ok 4 3
        (GetExif.attr (some [("DateTime", TagValue.str "not a date")])), false⟩).2
      = Except.error BuildError.valueError ∧
    (runBuild ⟨OpenResult.ok 4 3
        (GetExif.attr (some [("Make", TagValue.str "Canon")])), false⟩).2
      = Except.ok
          { width := some 4, height := some 3,
            description := Description.dt CaptureTime.now,
            exif := { make := TagValue.str "Canon" } } := by
  decide

/-- Claim C3 (amended): a present but malformed DateTime tag aborts the build
with the uncaught parse error and no record is produced; when the tag is
absent the capture time falls back to the moment of extraction, but the
description is then set to that datetime whenever an EXIF dictionary is
present, and stays empty only when there is none. -/
theorem datetime_fallback_actual (w h : Nat) (b : Bool) (v : String)
    (rest tags : List (String × TagValue))
    (hmal : strptimeYmdHms v = none)
    (habs : ∀ p ∈ tags, p.1 ≠ "DateTime") :
    (runBuild ⟨OpenResult.ok w h
        (GetExif.attr (some (("DateTime", TagValue.str v) :: rest))), b⟩).2
      = Except.error BuildError.valueError ∧
    (∃ st, (runBuild ⟨OpenResult.ok w h (GetExif.attr (some tags)), b⟩).2 = Except.ok st ∧
       st.capturedAt = CaptureTime.now ∧ st.description = Description.dt CaptureTime.now) ∧
    (∃ st, (runBuild ⟨OpenResult.ok w h GetExif.noAttr, b⟩).2 = Except.ok st ∧
       st.description = Description.empty) := by
  refine ⟨?_, ?_, ?_⟩
  · have h1 : processTag { width := some w, height := some h } "DateTime" (TagValue.str v)
        = Except.error BuildError.valueError := by
      simp [processTag, hmal]
    have hfail : processTags { width := some w, height := some h }
        (("DateTime", TagValue.str v) :: rest) = Except.error BuildError.valueError := by
      simp [processTags, h1]
    simp [runBuild, extract, hfail]
  · obtain ⟨st2, h2, hc, hw2, hh2⟩ :=
      processTags_no_datetime tags { width := some w, height := some h } habs
    have hex : extract (OpenResult.ok w h (GetExif.attr (some tags))) =
        Except.ok { st2 with description := Description.dt st2.capturedAt } := by
      simp only [extract]
      rw [h2]
    have hth : thumbnailReadsDims { st2 with description := Description.dt st2.capturedAt }
        = Except.ok () := by
      simp [thumbnailReadsDims, hw2, hh2]
    refine ⟨{ st2 with description := Description.dt st2.capturedAt }, ?_, hc, ?_⟩
    · simp [runBuild, hex, hth]
    · show Description.dt st2.capturedAt = Description.dt CaptureTime.now
      exact congrArg Description.dt hc
  · exact ⟨{ width := some w, height := some h },
      by simp [runBuild, extract, thumbnailReadsDims], rfl⟩

/-- Witness for claim C3 at a malformed tag value, a DateTime-free tag list
and an EXIF-free image. -/
theorem datetime_fallback_actual_witness :
    (runBuild ⟨OpenResult.ok 4 3
        (GetExif.attr (some [("DateTime", TagValue.str "not a date")])), false⟩).2
      = Except.error BuildError.valueError ∧
    (∃ st, (runBuild ⟨OpenResult.ok 4 3
        (GetExif.attr (some [("Make", TagValue.str "Canon")])), false⟩).2 = Except.ok st ∧
       st.capturedAt = CaptureTime.now ∧ st.description = Description.dt CaptureTime.now) ∧
    (∃ st, (runBuild ⟨OpenResult.ok 4 3 GetExif.noAttr, false⟩).2 = Except.ok st ∧
       st.description = Description.empty) :=
  datetime_fallback_actual 4 3 false "not a date" [] [("Make", TagValue.str "Canon")]
    (by decide) (by decide)

/-- Claim C4 counterexample: on a decode failure the build does not surface a
decode error — it proceeds into the small-thumbnail transform step and dies
there with an attribute error on the unset width. -/
theorem decode_failure_counterexample :
    (runBuild ⟨OpenResult.ioError, false⟩).2 = Except.error BuildError.attributeError ∧
    BuildStep.smallThumb ∈ (runBuild ⟨OpenResult.ioError, false⟩).1 := by
  decide

/-- Claim C4 (amended): on a decode failure the `IOError` is caught and only
logged, the build continues with width and height unset, and then fails with
an `AttributeError` when the small-thumbnail step reads the unset width; no
record is returned and no derivative file has been produced, but the
surfaced error is not a decode error and a transform step does start. -/
theorem decode_failure_actual (b : Bool) :
    runBuild ⟨OpenResult.ioError, b⟩ =
      ([BuildStep.identifiers, BuildStep.metadata, BuildStep.smallThumb],
       Except.error BuildError.attributeError) := by
  rfl

/-- Inversion for `osRemove`: removal succeeds exactly on a present path, leaving the file system
without it. -/
theorem osRemove_some (fs : List String) (p : String) (fs2 : List String)
    (h : osRemove fs p = some fs2) : p ∈ fs ∧ fs2 = fs.erase p := by
  unfold osRemove at h
  by_cases hp : p ∈ fs
  · rw [if_pos hp] at h
    exact ⟨hp, (Option.some.inj h).symm⟩
  · rw [if_neg hp] at h
    exact absurd h (by simp)

/-- The thumbnail-removal tail of `cleanup` never adds files. -/
theorem removeThumbs_subset (fs : List String) (t u : String) : removeThumbs fs t u ⊆ fs := by
  unfold removeThumbs
  cases h1 : osRemove fs t with
  | none => exact fun p hp => hp
  | some fs2 =>
    obtain ⟨ht, rfl⟩ := osRemove_some fs t fs2 h1
    show (match osRemove (fs.erase t) u with
      | none => fs.erase t
      | some fs3 => fs3) ⊆ fs
    cases h2 : osRemove (fs.erase t) u with
    | none => exact List.erase_subset t fs
    | some fs3 =>
      obtain ⟨hu, rfl⟩ := osRemove_some _ u fs3 h2
      exact fun p hp => List.erase_subset _ _ (List.erase_subset _ _ hp)

/-- The thumbnail-removal tail of `cleanup` keeps every path different from
the two it targets. -/
theorem removeThumbs_mem (fs : List String) (t u p : String)
    (hp : p ∈ fs) (h1 : p ≠ t) (h2 : p ≠ u) : p ∈ removeThumbs fs t u := by
  unfold removeThumbs
  cases hr1 : osRemove fs t with
  | none => exact hp
  | some fs2 =>
    obtain ⟨ht, rfl⟩ := osRemove_some fs t fs2 hr1
    have hp1 : p ∈ fs.erase t := (List.mem_erase_of_ne h1).mpr hp
    show p ∈ (match osRemove (fs.erase t) u with
      | none => fs.erase t
      | some fs3 => fs3)
    cases hr2 : osRemove (fs.erase t) u with
    | none => exact hp1
    | some fs3 =>
      obtain ⟨hu, rfl⟩ := osRemove_some _ u fs3 hr2
      exact (List.mem_erase_of_ne h2).mpr hp1

/-- Claim C5 counterexample: when the medium path aliases the source (the
small-image no-resize case) cleanup deletes the original source file, and a
failing first removal prevents the deletion of both thumbnails. -/
theorem cleanup_deletes_aliased_source_counterexample :
    cleanup ["src.jpg", "small.tmp", "big2x.tmp"] "src.jpg" "small.tmp" "big2x.tmp" = [] ∧
    "src.jpg" ∉ cleanup ["src.jpg", "small.tmp", "big2x.tmp"] "src.jpg" "small.tmp" "big2x.tmp" ∧
    cleanup ["small.tmp", "big2x.tmp"] "gone.tmp" "small.tmp" "big2x.tmp"
      = ["small.tmp", "big2x.tmp"] := by
  decide

/-- Claim C5 (amended): cleanup removes the medium, small-thumbnail and
@2x-thumbnail paths in that order inside one handler, so it never raises and
never touches any other path, but the first failure aborts the remaining
removals, and when the medium path aliases the source the source file itself
is deleted. -/
theorem cleanup_actual (fs : List String) (m t u : String) :
    (m ∉ fs → cleanup fs m t u = fs) ∧
    (∀ p, p ∈ cleanup fs m t u → p ∈ fs) ∧
    (∀ p, p ∈ fs → p ≠ m → p ≠ t → p ≠ u → p ∈ cleanup fs m t u) ∧
    (fs.Nodup → m ∈ fs → m ∉ cleanup fs m t u) := by
  refine ⟨?_, ?_, ?_, ?_⟩
  · intro hm
    unfold cleanup osRemove
    rw [if_neg hm]
  · intro p hp
    unfold cleanup at hp
    rcases h1 : osRemove fs m with _ | fs1
    · rw [h1] at hp
      exact hp
    · rw [h1] at hp
      obtain ⟨hm, rfl⟩ := osRemove_some fs m fs1 h1
      exact List.erase_subset _ _ (removeThumbs_subset _ t u hp)
  · intro p hp hpm hpt hpu
    unfold cleanup
    rcases h1 : osRemove fs m with _ | fs1
    · exact hp
    · obtain ⟨hm, rfl⟩ := osRemove_some fs m fs1 h1
      exact removeThumbs_mem _ t u p ((List.mem_erase_of_ne hpm).mpr hp) hpt hpu
  · intro hnd hm
    unfold cleanup osRemove
    rw [if_pos hm]
    intro hmem
    exact hnd.not_mem_erase (removeThumbs_subset _ t u hmem)

/-- Witness for claim C5 on a three-file state whose medium path aliases the
source. -/
theorem cleanup_actual_witness :
    "srcA.jpg" ∉ cleanup ["srcA.jpg", "sm.tmp", "bg.tmp"] "srcA.jpg" "sm.tmp" "bg.tmp" :=
  (cleanup_actual ["srcA.jpg", "sm.tmp", "bg.tmp"] "srcA.jpg" "sm.tmp" "bg.tmp").2.2.2
    (by decide) (by decide)

end Lychee
